import Mathlib

/-!
Verification development for the resource-identifier parsers/formatters and
the virtual machine scale set expand/flatten helpers of this provider
repository.

Strings are handled at the level of their underlying character lists
(`String.data`); machine integers of the Go source are modelled as `Int`.
Fallible Go functions returning `(value, error)` pairs are modelled as
`Except String value`.
-/

/-- Modelled from the spec: ASCII lower-casing of a single character, as the
Go standard library `strings.ToLower` behaves on the ASCII segment names and
enum constants handled here (the library is outside this repository). -/
def lowerChar (c : Char) : Char :=
  if 'A' ≤ c ∧ c ≤ 'Z' then Char.ofNat (c.toNat + 32) else c

/-- Modelled from the spec: ASCII lower-casing of a character list. -/
def lowerList (l : List Char) : List Char := l.map lowerChar

/-- Modelled from the spec: ASCII lower-casing of a string, the model of the
Go `strings.ToLower` used by the enum parsers and the case-insensitive
resource ID parsers. -/
def goToLower (s : String) : String := String.mk (lowerList s.data)

/-- Components of a Data Factory resource ID, as in the generated parse
package: subscription, resource group and factory name. -/
structure DataFactoryId where
  SubscriptionId : String
  ResourceGroup : String
  FactoryName : String
deriving DecidableEq, Repr

/-- Constructor for a `DataFactoryId`, mirroring the generated Go
`NewDataFactoryID`. -/
def NewDataFactoryID (subscriptionId resourceGroup factoryName : String) : DataFactoryId :=
  ⟨subscriptionId, resourceGroup, factoryName⟩

/-- Formatter for a `DataFactoryId`, mirroring the generated Go `ID()`
method with format
`/subscriptions/%s/resourceGroups/%s/providers/Microsoft.DataFactory/factories/%s`. -/
def DataFactoryId.ID (id : DataFactoryId) : String :=
  "/subscriptions/" ++ id.SubscriptionId ++ "/resourceGroups/" ++ id.ResourceGroup ++
    "/providers/Microsoft.DataFactory/factories/" ++ id.FactoryName

/-- Modelled from the spec: the case-sensitive Data Factory resource ID
parser (the generated `DataFactoryID` function is absent from the source
tree; only its tests are present). Per the spec, an ARM-style ID
`/subscriptions/{id}/resourceGroups/{name}/providers/{namespace}/{type}/{name}`
is accepted exactly when every fixed segment name appears in its canonical
casing and every variable segment is non-empty; otherwise parsing is
rejected. -/
def DataFactoryID (input : String) : Except String DataFactoryId :=
  match input.data.splitOn '/' with
  | [c0, c1, sub, c2, rg, c3, c4, c5, name] =>
    if c0 = [] ∧ c1 = "subscriptions".data ∧ c2 = "resourceGroups".data ∧
        c3 = "providers".data ∧ c4 = "Microsoft.DataFactory".data ∧
        c5 = "factories".data ∧ sub ≠ [] ∧ rg ≠ [] ∧ name ≠ [] then
      .ok ⟨String.mk sub, String.mk rg, String.mk name⟩
    else
      .error ("ID was missing required segments or used an incorrect casing: " ++ input)
  | _ => .error ("ID was missing required segments or used an incorrect casing: " ++ input)

/-- Components of an Express Route Port resource ID, as in the generated
parse package. -/
structure ExpressRoutePortId where
  SubscriptionId : String
  ResourceGroup : String
  Name : String
deriving DecidableEq, Repr

/-- Constructor for an `ExpressRoutePortId`, mirroring the generated Go
`NewExpressRoutePortID`. -/
def NewExpressRoutePortID (subscriptionId resourceGroup name : String) : ExpressRoutePortId :=
  ⟨subscriptionId, resourceGroup, name⟩

/-- Formatter for an `ExpressRoutePortId`, mirroring the generated Go `ID()`
method with format
`/subscriptions/%s/resourceGroups/%s/providers/Microsoft.Network/expressRoutePorts/%s`. -/
def ExpressRoutePortId.ID (id : ExpressRoutePortId) : String :=
  "/subscriptions/" ++ id.SubscriptionId ++ "/resourceGroups/" ++ id.ResourceGroup ++
    "/providers/Microsoft.Network/expressRoutePorts/" ++ id.Name

/-- Modelled from the spec: the case-sensitive Express Route Port resource ID
parser (the generated `ExpressRoutePortID` function is absent from the source
tree; only its tests are present). Fixed segment names must appear in their
canonical casing and every variable segment must be non-empty. -/
def ExpressRoutePortID (input : String) : Except String ExpressRoutePortId :=
  match input.data.splitOn '/' with
  | [c0, c1, sub, c2, rg, c3, c4, c5, name] =>
    if c0 = [] ∧ c1 = "subscriptions".data ∧ c2 = "resourceGroups".data ∧
        c3 = "providers".data ∧ c4 = "Microsoft.Network".data ∧
        c5 = "expressRoutePorts".data ∧ sub ≠ [] ∧ rg ≠ [] ∧ name ≠ [] then
      .ok ⟨String.mk sub, String.mk rg, String.mk name⟩
    else
      .error ("ID was missing required segments or used an incorrect casing: " ++ input)
  | _ => .error ("ID was missing required segments or used an incorrect casing: " ++ input)

/-- Modelled from the spec: the case-insensitive Express Route Port resource
ID parser (the generated `ExpressRoutePortIDInsensitively` function is absent
from the source tree; only its tests are present). Fixed segment names are
matched under any casing, variable segments are returned unchanged and must
be non-empty. -/
def ExpressRoutePortIDInsensitively (input : String) : Except String ExpressRoutePortId :=
  match input.data.splitOn '/' with
  | [c0, c1, sub, c2, rg, c3, c4, c5, name] =>
    if c0 = [] ∧ lowerList c1 = "subscriptions".data ∧ lowerList c2 = "resourcegroups".data ∧
        lowerList c3 = "providers".data ∧ lowerList c4 = "microsoft.network".data ∧
        lowerList c5 = "expressrouteports".data ∧ sub ≠ [] ∧ rg ≠ [] ∧ name ≠ [] then
      .ok ⟨String.mk sub, String.mk rg, String.mk name⟩
    else
      .error ("ID was missing required segments: " ++ input)
  | _ => .error ("ID was missing required segments: " ++ input)

/-- Components of a Blob Inventory Policy resource ID, as in the generated
parse package. -/
structure BlobInventoryPolicyId where
  SubscriptionId : String
  ResourceGroup : String
  StorageAccountName : String
  InventoryPolicyName : String
deriving DecidableEq, Repr

/-- Constructor for a `BlobInventoryPolicyId`, mirroring the generated Go
`NewBlobInventoryPolicyID`. -/
def NewBlobInventoryPolicyID (subscriptionId resourceGroup storageAccountName inventoryPolicyName : String) : BlobInventoryPolicyId :=
  ⟨subscriptionId, resourceGroup, storageAccountName, inventoryPolicyName⟩

/-- Formatter for a `BlobInventoryPolicyId`, mirroring the generated Go
`ID()` method with format
`/subscriptions/%s/resourceGroups/%s/providers/Microsoft.Storage/storageAccounts/%s/inventoryPolicies/%s`. -/
def BlobInventoryPolicyId.ID (id : BlobInventoryPolicyId) : String :=
  "/subscriptions/" ++ id.SubscriptionId ++ "/resourceGroups/" ++ id.ResourceGroup ++
    "/providers/Microsoft.Storage/storageAccounts/" ++ id.StorageAccountName ++
    "/inventoryPolicies/" ++ id.InventoryPolicyName

/-- Modelled from the spec: the case-sensitive Blob Inventory Policy
resource ID parser (the generated `BlobInventoryPolicyID` function is absent
from the source tree; only its tests are present). The ID carries two levels
of resource under the provider namespace: the storage account and the
inventory policy. -/
def BlobInventoryPolicyID (input : String) : Except String BlobInventoryPolicyId :=
  match input.data.splitOn '/' with
  | [c0, c1, sub, c2, rg, c3, c4, c5, acct, c6, pol] =>
    if c0 = [] ∧ c1 = "subscriptions".data ∧ c2 = "resourceGroups".data ∧
        c3 = "providers".data ∧ c4 = "Microsoft.Storage".data ∧
        c5 = "storageAccounts".data ∧ c6 = "inventoryPolicies".data ∧
        sub ≠ [] ∧ rg ≠ [] ∧ acct ≠ [] ∧ pol ≠ [] then
      .ok ⟨String.mk sub, String.mk rg, String.mk acct, String.mk pol⟩
    else
      .error ("ID was missing required segments or used an incorrect casing: " ++ input)
  | _ => .error ("ID was missing required segments or used an incorrect casing: " ++ input)

theorem strDataAppend (a b : String) : (a ++ b).data = a.data ++ b.data := rfl

theorem strDataNeNil {s : String} (h : s ≠ "") : s.data ≠ [] := by
  intro hc
  exact h (String.ext hc)

theorem noSlash_of_lowerList {l t : List Char} (h : lowerList l = t)
    (ht : '/' ∉ t) : '/' ∉ l := by
  intro hm
  apply ht
  rw [← h]
  have hl : lowerChar '/' = '/' := by decide
  exact hl ▸ List.mem_map_of_mem lowerChar hm

/-- Helper assembling an ARM-style ID string from its eight path segments
(leading slash, then segments separated by slashes). -/
def mkIdString (a b c d e f g h : String) : String :=
  "/" ++ a ++ "/" ++ b ++ "/" ++ c ++ "/" ++ d ++ "/" ++ e ++ "/" ++ f ++ "/" ++ g ++ "/" ++ h

theorem mkIdString_splitOn (a b c d e f g h : String)
    (ha : '/' ∉ a.data) (hb : '/' ∉ b.data) (hc : '/' ∉ c.data)
    (hd : '/' ∉ d.data) (he : '/' ∉ e.data) (hf : '/' ∉ f.data)
    (hg : '/' ∉ g.data) (hh : '/' ∉ h.data) :
    (mkIdString a b c d e f g h).data.splitOn '/' =
      [[], a.data, b.data, c.data, d.data, e.data, f.data, g.data, h.data] := by
  have hdata : (mkIdString a b c d e f g h).data =
      ['/'].intercalate [[], a.data, b.data, c.data, d.data, e.data, f.data, g.data, h.data] := by
    simp [mkIdString, strDataAppend, List.intercalate, List.intersperse]
  rw [hdata]
  refine List.splitOn_intercalate _ '/' ?_ (by simp)
  intro l hl
  simp only [List.mem_cons, List.not_mem_nil, or_false] at hl
  rcases hl with rfl | rfl | rfl | rfl | rfl | rfl | rfl | rfl | rfl <;>
    first | simp | assumption

theorem dataFactoryID_ok_inv {input : String} {id : DataFactoryId}
    (h : DataFactoryID input = .ok id) :
    input.data.splitOn '/' =
      [[], "subscriptions".data, id.SubscriptionId.data, "resourceGroups".data,
        id.ResourceGroup.data, "providers".data, "Microsoft.DataFactory".data,
        "factories".data, id.FactoryName.data] := by
  unfold DataFactoryID at h
  split at h
  case _ c0 c1 sub c2 rg c3 c4 c5 name heq =>
    split at h
    case isTrue hcond =>
      obtain ⟨h0, h1, h2, h3, h4, h5, hs, hr, hn⟩ := hcond
      injection h with h
      subst h
      rw [heq, h0, h1, h2, h3, h4, h5]
    case isFalse => simp at h
  case _ => simp at h

theorem expressRoutePortID_ok_inv {input : String} {id : ExpressRoutePortId}
    (h : ExpressRoutePortID input = .ok id) :
    input.data.splitOn '/' =
      [[], "subscriptions".data, id.SubscriptionId.data, "resourceGroups".data,
        id.ResourceGroup.data, "providers".data, "Microsoft.Network".data,
        "expressRoutePorts".data, id.Name.data] := by
  unfold ExpressRoutePortID at h
  split at h
  case _ c0 c1 sub c2 rg c3 c4 c5 name heq =>
    split at h
    case isTrue hcond =>
      obtain ⟨h0, h1, h2, h3, h4, h5, hs, hr, hn⟩ := hcond
      injection h with h
      subst h
      rw [heq, h0, h1, h2, h3, h4, h5]
    case isFalse => simp at h
  case _ => simp at h

/-- C1: for every valid resource identifier string, parsing it with the
case-sensitive parser (`DataFactoryID`, `ExpressRoutePortID`) and then
reformatting the parsed value with its `ID()` method yields the original
string unchanged. -/
theorem claim_c1_parse_format_roundtrip :
    (∀ (input : String) (id : DataFactoryId), DataFactoryID input = .ok id → id.ID = input) ∧
    (∀ (input : String) (id : ExpressRoutePortId), ExpressRoutePortID input = .ok id → id.ID = input) := by
  constructor
  · intro input id h
    have hj := List.intercalate_splitOn input.data '/'
    rw [dataFactoryID_ok_inv h] at hj
    apply String.ext
    rw [← hj]
    simp [DataFactoryId.ID, strDataAppend, List.intercalate, List.intersperse]
  · intro input id h
    have hj := List.intercalate_splitOn input.data '/'
    rw [expressRoutePortID_ok_inv h] at hj
    apply String.ext
    rw [← hj]
    simp [ExpressRoutePortId.ID, strDataAppend, List.intercalate, List.intersperse]

/-- Witness for C1: the round trip evaluated on the concrete IDs used in the
generated tests. -/
theorem claim_c1_parse_format_roundtrip_witness :
    (NewDataFactoryID "12345678-1234-9876-4563-123456789012" "resGroup1" "facName1").ID =
        "/subscriptions/12345678-1234-9876-4563-123456789012/resourceGroups/resGroup1/providers/Microsoft.DataFactory/factories/facName1" ∧
    (NewExpressRoutePortID "12345678-1234-9876-4563-123456789012" "resGroup1" "port1").ID =
        "/subscriptions/12345678-1234-9876-4563-123456789012/resourceGroups/resGroup1/providers/Microsoft.Network/expressRoutePorts/port1" := by
  constructor
  · exact claim_c1_parse_format_roundtrip.1
      "/subscriptions/12345678-1234-9876-4563-123456789012/resourceGroups/resGroup1/providers/Microsoft.DataFactory/factories/facName1"
      (NewDataFactoryID "12345678-1234-9876-4563-123456789012" "resGroup1" "facName1") rfl
  · exact claim_c1_parse_format_roundtrip.2
      "/subscriptions/12345678-1234-9876-4563-123456789012/resourceGroups/resGroup1/providers/Microsoft.Network/expressRoutePorts/port1"
      (NewExpressRoutePortID "12345678-1234-9876-4563-123456789012" "resGroup1" "port1") rfl

/-- C3: every input string missing a required path segment of the resource
identifier (empty input, missing `subscriptions` segment or its value,
missing `resourceGroups` segment or its value, missing the resource-type
segment or the final resource name) is rejected by the resource ID parser,
here evaluated for `DataFactoryID` and `BlobInventoryPolicyID` on the inputs
enumerated in the generated tests. -/
theorem claim_c3_missing_segments_rejected :
    (DataFactoryID "").isOk = false ∧
    (DataFactoryID "/").isOk = false ∧
    (DataFactoryID "/subscriptions/").isOk = false ∧
    (DataFactoryID "/subscriptions/12345678-1234-9876-4563-123456789012/").isOk = false ∧
    (DataFactoryID "/subscriptions/12345678-1234-9876-4563-123456789012/resourceGroups/").isOk = false ∧
    (DataFactoryID "/subscriptions/12345678-1234-9876-4563-123456789012/resourceGroups/resGroup1/providers/Microsoft.DataFactory/").isOk = false ∧
    (DataFactoryID "/subscriptions/12345678-1234-9876-4563-123456789012/resourceGroups/resGroup1/providers/Microsoft.DataFactory/factories/").isOk = false ∧
    (BlobInventoryPolicyID "").isOk = false ∧
    (BlobInventoryPolicyID "/").isOk = false ∧
    (BlobInventoryPolicyID "/subscriptions/").isOk = false ∧
    (BlobInventoryPolicyID "/subscriptions/12345678-1234-9876-4563-123456789012/").isOk = false ∧
    (BlobInventoryPolicyID "/subscriptions/12345678-1234-9876-4563-123456789012/resourceGroups/").isOk = false ∧
    (BlobInventoryPolicyID "/subscriptions/12345678-1234-9876-4563-123456789012/resourceGroups/resGroup1/providers/Microsoft.Storage/").isOk = false ∧
    (BlobInventoryPolicyID "/subscriptions/12345678-1234-9876-4563-123456789012/resourceGroups/resGroup1/providers/Microsoft.Storage/storageAccounts/").isOk = false ∧
    (BlobInventoryPolicyID "/subscriptions/12345678-1234-9876-4563-123456789012/resourceGroups/resGroup1/providers/Microsoft.Storage/storageAccounts/storageAccount1/").isOk = false ∧
    (BlobInventoryPolicyID "/subscriptions/12345678-1234-9876-4563-123456789012/resourceGroups/resGroup1/providers/Microsoft.Storage/storageAccounts/storageAccount1/inventoryPolicies/").isOk = false := by
  decide

/-- C4: the case-sensitive parser `ExpressRoutePortID` rejects an
otherwise-valid identifier whose fixed segment names are written in a
non-canonical casing, while `ExpressRoutePortIDInsensitively` accepts the
identifier under any casing of the fixed segment names and returns the same
parsed components (SubscriptionId, ResourceGroup, Name) as the case-sensitive
parser does for the canonical casing. -/
theorem claim_c4_casing :
    ∀ (s1 s2 s3 s4 s5 sub rg name : String),
      lowerList s1.data = "subscriptions".data →
      lowerList s2.data = "resourcegroups".data →
      lowerList s3.data = "providers".data →
      lowerList s4.data = "microsoft.network".data →
      lowerList s5.data = "expressrouteports".data →
      '/' ∉ sub.data → '/' ∉ rg.data → '/' ∉ name.data →
      sub ≠ "" → rg ≠ "" → name ≠ "" →
      ExpressRoutePortIDInsensitively (mkIdString s1 sub s2 rg s3 s4 s5 name) =
          .ok ⟨sub, rg, name⟩ ∧
      (¬(s1 = "subscriptions" ∧ s2 = "resourceGroups" ∧ s3 = "providers" ∧
            s4 = "Microsoft.Network" ∧ s5 = "expressRoutePorts") →
        (ExpressRoutePortID (mkIdString s1 sub s2 rg s3 s4 s5 name)).isOk = false) ∧
      ExpressRoutePortID
          (mkIdString "subscriptions" sub "resourceGroups" rg "providers"
            "Microsoft.Network" "expressRoutePorts" name) = .ok ⟨sub, rg, name⟩ := by
  intro s1 s2 s3 s4 s5 sub rg name h1 h2 h3 h4 h5 hsub hrg hname hsubne hrgne hnamene
  have hs1 : '/' ∉ s1.data := noSlash_of_lowerList h1 (by decide)
  have hs2 : '/' ∉ s2.data := noSlash_of_lowerList h2 (by decide)
  have hs3 : '/' ∉ s3.data := noSlash_of_lowerList h3 (by decide)
  have hs4 : '/' ∉ s4.data := noSlash_of_lowerList h4 (by decide)
  have hs5 : '/' ∉ s5.data := noSlash_of_lowerList h5 (by decide)
  have hsplit := mkIdString_splitOn s1 sub s2 rg s3 s4 s5 name hs1 hsub hs2 hrg hs3 hs4 hs5 hname
  have hsplitCanon := mkIdString_splitOn "subscriptions" sub "resourceGroups" rg "providers"
      "Microsoft.Network" "expressRoutePorts" name (by decide) hsub (by decide) hrg
      (by decide) (by decide) (by decide) hname
  refine ⟨?_, ?_, ?_⟩
  · unfold ExpressRoutePortIDInsensitively
    rw [hsplit]
    simp [h1, h2, h3, h4, h5, strDataNeNil hsubne, strDataNeNil hrgne, strDataNeNil hnamene]
  · intro hne
    unfold ExpressRoutePortID
    rw [hsplit]
    simp only [strDataNeNil hsubne, strDataNeNil hrgne, strDataNeNil hnamene,
      ne_eq, not_false_eq_true, and_true, List.cons.injEq, and_self, true_and]
    rw [if_neg]
    · rfl
    · rintro ⟨g1, g2, g3, g4, g5⟩
      exact hne ⟨String.ext g1, String.ext g2, String.ext g3, String.ext g4, String.ext g5⟩
  · unfold ExpressRoutePortID
    rw [hsplitCanon]
    simp [strDataNeNil hsubne, strDataNeNil hrgne, strDataNeNil hnamene]

/-- Witness for C4: evaluated on the concrete express route port ID of the
generated tests, with mixed and upper casings of the fixed segment names. -/
theorem claim_c4_casing_witness :
    ExpressRoutePortIDInsensitively
        (mkIdString "SUBSCRIPTIONS" "12345678-1234-9876-4563-123456789012" "resourcegroups"
          "resGroup1" "Providers" "MICROSOFT.NETWORK" "ExPrEsSrOuTePoRtS" "port1") =
      .ok ⟨"12345678-1234-9876-4563-123456789012", "resGroup1", "port1"⟩ ∧
    (ExpressRoutePortID
        (mkIdString "SUBSCRIPTIONS" "12345678-1234-9876-4563-123456789012" "resourcegroups"
          "resGroup1" "Providers" "MICROSOFT.NETWORK" "ExPrEsSrOuTePoRtS" "port1")).isOk = false ∧
    ExpressRoutePortID
        (mkIdString "subscriptions" "12345678-1234-9876-4563-123456789012" "resourceGroups"
          "resGroup1" "providers" "Microsoft.Network" "expressRoutePorts" "port1") =
      .ok ⟨"12345678-1234-9876-4563-123456789012", "resGroup1", "port1"⟩ := by
  have h := claim_c4_casing "SUBSCRIPTIONS" "resourcegroups" "Providers" "MICROSOFT.NETWORK"
      "ExPrEsSrOuTePoRtS" "12345678-1234-9876-4563-123456789012" "resGroup1" "port1"
      (by decide) (by decide) (by decide) (by decide) (by decide)
      (by decide) (by decide) (by decide) (by decide) (by decide) (by decide)
  exact ⟨h.1, h.2.1 (by decide), h.2.2⟩

/-- Configuration block of `additional_capabilities` (one list entry), keyed
`ultra_ssd_enabled` in the schema. -/
structure AdditionalCapabilitiesConfig where
  ultra_ssd_enabled : Bool
deriving DecidableEq, Repr

/-- API model `virtualmachinescalesets.AdditionalCapabilities`. -/
structure AdditionalCapabilities where
  UltraSSDEnabled : Option Bool
deriving DecidableEq, Repr

/-- Embeds `ExpandVirtualMachineScaleSetAdditionalCapabilities`: an empty
input list yields default capabilities, a non-empty one takes
`ultra_ssd_enabled` from its first entry; the Go function always returns a
non-nil pointer. -/
def ExpandVirtualMachineScaleSetAdditionalCapabilities
    (input : List AdditionalCapabilitiesConfig) : AdditionalCapabilities :=
  match input with
  | [] => ⟨none⟩
  | raw :: _ => ⟨some raw.ultra_ssd_enabled⟩

/-- Embeds `FlattenVirtualMachineScaleSetAdditionalCapabilities`: nil input
flattens to the empty list, otherwise to a one-entry list defaulting
`ultra_ssd_enabled` to `false`. -/
def FlattenVirtualMachineScaleSetAdditionalCapabilities
    (input : Option AdditionalCapabilities) : List AdditionalCapabilitiesConfig :=
  match input with
  | none => []
  | some caps => [⟨caps.UltraSSDEnabled.getD false⟩]

/-- Configuration block of `scale_in` (one list entry) with keys `rule` and
`force_deletion_enabled`. -/
structure ScaleInPolicyConfig where
  rule : String
  force_deletion_enabled : Bool
deriving DecidableEq, Repr

/-- API model `virtualmachinescalesets.ScaleInPolicy`. -/
structure ScaleInPolicy where
  Rules : Option (List String)
  ForceDeletion : Option Bool
deriving DecidableEq, Repr

/-- Embeds `ExpandVirtualMachineScaleSetScaleInPolicy`: empty input yields
nil, otherwise a policy with a single rule and the force-deletion flag. -/
def ExpandVirtualMachineScaleSetScaleInPolicy
    (input : List ScaleInPolicyConfig) : Option ScaleInPolicy :=
  match input with
  | [] => none
  | raw :: _ => some ⟨some [raw.rule], some raw.force_deletion_enabled⟩

/-- Embeds `FlattenVirtualMachineScaleSetScaleInPolicy`: nil input flattens
to the empty list; otherwise `rule` defaults to the `Default` scale-in rule
when the rules list is nil or empty, and `force_deletion_enabled` defaults
to `false`. -/
def FlattenVirtualMachineScaleSetScaleInPolicy
    (input : Option ScaleInPolicy) : List ScaleInPolicyConfig :=
  match input with
  | none => []
  | some policy =>
    let rule :=
      match policy.Rules with
      | some (r :: _) => r
      | _ => "Default"
    let forceDeletion := policy.ForceDeletion.getD false
    [⟨rule, forceDeletion⟩]

/-- Configuration block of `spot_restore` (one list entry) with keys
`enabled` and `timeout`. -/
structure SpotRestorePolicyConfig where
  enabled : Bool
  timeout : String
deriving DecidableEq, Repr

/-- API model `virtualmachinescalesets.SpotRestorePolicy`. -/
structure SpotRestorePolicy where
  Enabled : Option Bool
  RestoreTimeout : Option String
deriving DecidableEq, Repr

/-- Embeds `ExpandVirtualMachineScaleSetSpotRestorePolicy`: empty input
yields nil, otherwise a policy with both fields set. -/
def ExpandVirtualMachineScaleSetSpotRestorePolicy
    (input : List SpotRestorePolicyConfig) : Option SpotRestorePolicy :=
  match input with
  | [] => none
  | raw :: _ => some ⟨some raw.enabled, some raw.timeout⟩

/-- Embeds `FlattenVirtualMachineScaleSetSpotRestorePolicy`: nil input
flattens to nil (the empty list), otherwise to a one-entry list with both
fields defaulted on nil. -/
def FlattenVirtualMachineScaleSetSpotRestorePolicy
    (input : Option SpotRestorePolicy) : List SpotRestorePolicyConfig :=
  match input with
  | none => []
  | some policy => [⟨policy.Enabled.getD false, policy.RestoreTimeout.getD ""⟩]

/-- C2: for every one-element configuration list `[x]` of the VM scale set
blocks `additional_capabilities`, `scale_in_policy` and
`spot_restore_policy`, flattening the result of expanding `[x]` returns
`[x]` itself. -/
theorem claim_c2_flatten_expand_stable :
    (∀ x : AdditionalCapabilitiesConfig,
      FlattenVirtualMachineScaleSetAdditionalCapabilities
        (some (ExpandVirtualMachineScaleSetAdditionalCapabilities [x])) = [x]) ∧
    (∀ x : ScaleInPolicyConfig,
      FlattenVirtualMachineScaleSetScaleInPolicy
        (ExpandVirtualMachineScaleSetScaleInPolicy [x]) = [x]) ∧
    (∀ x : SpotRestorePolicyConfig,
      FlattenVirtualMachineScaleSetSpotRestorePolicy
        (ExpandVirtualMachineScaleSetSpotRestorePolicy [x]) = [x]) := by
  refine ⟨fun x => rfl, fun x => rfl, fun x => rfl⟩

/-- API model `virtualmachinescalesets.SubResource`: an optional resource
ID reference. -/
structure SubResource where
  Id : Option String
deriving DecidableEq, Repr

/-- API model `virtualmachinescalesets.ApiEntityReference`. -/
structure ApiEntityReference where
  Id : Option String
deriving DecidableEq, Repr

/-- Configuration entry of an `ip_tag` block. -/
structure IPTagConfig where
  tag : String
  type : String
deriving DecidableEq, Repr

/-- API model `virtualmachinescalesets.VirtualMachineScaleSetIPTag`. -/
structure VirtualMachineScaleSetIPTag where
  Tag : Option String
  IPTagType : Option String
deriving DecidableEq, Repr

/-- API model
`virtualmachinescalesets.VirtualMachineScaleSetPublicIPAddressConfigurationDnsSettings`. -/
structure VirtualMachineScaleSetPublicIPAddressConfigurationDnsSettings where
  DomainNameLabel : String
deriving DecidableEq, Repr

/-- API model
`virtualmachinescalesets.VirtualMachineScaleSetPublicIPAddressConfigurationProperties`.
The source field `PublicIPPrefix` is embedded as `PublicIPPrefixRef`. -/
structure VirtualMachineScaleSetPublicIPAddressConfigurationProperties where
  IPTags : Option (List VirtualMachineScaleSetIPTag)
  PublicIPAddressVersion : Option String
  DnsSettings : Option VirtualMachineScaleSetPublicIPAddressConfigurationDnsSettings
  IdleTimeoutInMinutes : Option Int
  PublicIPPrefixRef : Option SubResource
deriving DecidableEq, Repr

/-- API model
`virtualmachinescalesets.VirtualMachineScaleSetPublicIPAddressConfiguration`. -/
structure VirtualMachineScaleSetPublicIPAddressConfiguration where
  Name : String
  Properties : Option VirtualMachineScaleSetPublicIPAddressConfigurationProperties
deriving DecidableEq, Repr

/-- API model
`virtualmachinescalesets.VirtualMachineScaleSetIPConfigurationProperties`. -/
structure VirtualMachineScaleSetIPConfigurationProperties where
  Primary : Option Bool
  PrivateIPAddressVersion : Option String
  ApplicationGatewayBackendAddressPools : Option (List SubResource)
  ApplicationSecurityGroups : Option (List SubResource)
  LoadBalancerBackendAddressPools : Option (List SubResource)
  LoadBalancerInboundNatPools : Option (List SubResource)
  Subnet : Option ApiEntityReference
  PublicIPAddressConfiguration : Option VirtualMachineScaleSetPublicIPAddressConfiguration
deriving DecidableEq, Repr

/-- API model `virtualmachinescalesets.VirtualMachineScaleSetIPConfiguration`. -/
structure VirtualMachineScaleSetIPConfiguration where
  Name : String
  Properties : Option VirtualMachineScaleSetIPConfigurationProperties
deriving DecidableEq, Repr

/-- Configuration block of `public_ip_address` inside an IP configuration. -/
structure PublicIPAddressConfig where
  name : String
  version : String
  domain_name_label : String
  idle_timeout_in_minutes : Int
  ip_tag : List IPTagConfig
  public_ip_prefix_id : String
deriving DecidableEq, Repr

/-- Configuration block of `ip_configuration` inside a network interface. -/
structure IPConfigurationConfig where
  name : String
  primary : Bool
  version : String
  subnet_id : String
  application_gateway_backend_address_pool_ids : List String
  application_security_group_ids : List String
  load_balancer_backend_address_pool_ids : List String
  load_balancer_inbound_nat_rules_ids : List String
  public_ip_address : List PublicIPAddressConfig
deriving DecidableEq, Repr

/-- Embeds the `expandIDsToSubResources` helper of the compute package: each
ID string becomes a `SubResource` holding it; the Go helper always returns a
non-nil slice pointer. -/
def expandIDsToSubResources (input : List String) : Option (List SubResource) :=
  some (input.map fun id => ⟨some id⟩)

/-- Embeds `expandVirtualMachineScaleSetPublicIPAddress`. -/
def expandVirtualMachineScaleSetPublicIPAddress
    (raw : PublicIPAddressConfig) : VirtualMachineScaleSetPublicIPAddressConfiguration :=
  let ipTags := raw.ip_tag.map fun t =>
    (⟨some t.tag, some t.type⟩ : VirtualMachineScaleSetIPTag)
  { Name := raw.name
    Properties := some
      { IPTags := some ipTags
        PublicIPAddressVersion := some raw.version
        DnsSettings :=
          if raw.domain_name_label ≠ "" then some ⟨raw.domain_name_label⟩ else none
        IdleTimeoutInMinutes :=
          if raw.idle_timeout_in_minutes > 0 then some raw.idle_timeout_in_minutes else none
        PublicIPPrefixRef :=
          if raw.public_ip_prefix_id ≠ "" then some ⟨some raw.public_ip_prefix_id⟩ else none } }

/-- Embeds `expandVirtualMachineScaleSetIPConfiguration`: a primary IPv6 IP
configuration is rejected with an error; otherwise the configuration is
mapped onto the API model. -/
def expandVirtualMachineScaleSetIPConfiguration
    (raw : IPConfigurationConfig) : Except String VirtualMachineScaleSetIPConfiguration :=
  let primary := raw.primary
  let version := raw.version
  if primary ∧ version = "IPv6" then
    .error "an IPv6 Primary IP Configuration is unsupported - instead add a IPv4 IP Configuration as the Primary and make the IPv6 IP Configuration the secondary"
  else
    .ok
      { Name := raw.name
        Properties := some
          { Primary := some primary
            PrivateIPAddressVersion := some version
            ApplicationGatewayBackendAddressPools :=
              expandIDsToSubResources raw.application_gateway_backend_address_pool_ids
            ApplicationSecurityGroups :=
              expandIDsToSubResources raw.application_security_group_ids
            LoadBalancerBackendAddressPools :=
              expandIDsToSubResources raw.load_balancer_backend_address_pool_ids
            LoadBalancerInboundNatPools :=
              expandIDsToSubResources raw.load_balancer_inbound_nat_rules_ids
            Subnet := if raw.subnet_id ≠ "" then some ⟨some raw.subnet_id⟩ else none
            PublicIPAddressConfiguration :=
              match raw.public_ip_address with
              | [] => none
              | p :: _ => some (expandVirtualMachineScaleSetPublicIPAddress p) } }

/-- API model
`virtualmachinescalesets.VirtualMachineScaleSetUpdatePublicIPAddressConfigurationProperties`. -/
structure VirtualMachineScaleSetUpdatePublicIPAddressConfigurationProperties where
  DnsSettings : Option VirtualMachineScaleSetPublicIPAddressConfigurationDnsSettings
  IdleTimeoutInMinutes : Option Int
deriving DecidableEq, Repr

/-- API model
`virtualmachinescalesets.VirtualMachineScaleSetUpdatePublicIPAddressConfiguration`. -/
structure VirtualMachineScaleSetUpdatePublicIPAddressConfiguration where
  Name : Option String
  Properties : Option VirtualMachineScaleSetUpdatePublicIPAddressConfigurationProperties
deriving DecidableEq, Repr

/-- API model
`virtualmachinescalesets.VirtualMachineScaleSetUpdateIPConfigurationProperties`. -/
structure VirtualMachineScaleSetUpdateIPConfigurationProperties where
  Primary : Option Bool
  PrivateIPAddressVersion : Option String
  ApplicationGatewayBackendAddressPools : Option (List SubResource)
  ApplicationSecurityGroups : Option (List SubResource)
  LoadBalancerBackendAddressPools : Option (List SubResource)
  LoadBalancerInboundNatPools : Option (List SubResource)
  Subnet : Option ApiEntityReference
  PublicIPAddressConfiguration : Option VirtualMachineScaleSetUpdatePublicIPAddressConfiguration
deriving DecidableEq, Repr

/-- API model
`virtualmachinescalesets.VirtualMachineScaleSetUpdateIPConfiguration`. -/
structure VirtualMachineScaleSetUpdateIPConfiguration where
  Name : Option String
  Properties : Option VirtualMachineScaleSetUpdateIPConfigurationProperties
deriving DecidableEq, Repr

/-- Embeds `expandVirtualMachineScaleSetPublicIPAddressUpdate`. -/
def expandVirtualMachineScaleSetPublicIPAddressUpdate
    (raw : PublicIPAddressConfig) : VirtualMachineScaleSetUpdatePublicIPAddressConfiguration :=
  { Name := some raw.name
    Properties := some
      { DnsSettings :=
          if raw.domain_name_label ≠ "" then some ⟨raw.domain_name_label⟩ else none
        IdleTimeoutInMinutes :=
          if raw.idle_timeout_in_minutes > 0 then some raw.idle_timeout_in_minutes else none } }

/-- Embeds `expandVirtualMachineScaleSetIPConfigurationUpdate`: the same
primary-IPv6 rejection as the create-path expand, mapping onto the update
API model. -/
def expandVirtualMachineScaleSetIPConfigurationUpdate
    (raw : IPConfigurationConfig) : Except String VirtualMachineScaleSetUpdateIPConfiguration :=
  let applicationGatewayBackendAddressPoolIds :=
    expandIDsToSubResources raw.application_gateway_backend_address_pool_ids
  let applicationSecurityGroupIds :=
    expandIDsToSubResources raw.application_security_group_ids
  let loadBalancerBackendAddressPoolIds :=
    expandIDsToSubResources raw.load_balancer_backend_address_pool_ids
  let loadBalancerInboundNatPoolIds :=
    expandIDsToSubResources raw.load_balancer_inbound_nat_rules_ids
  let primary := raw.primary
  let version := raw.version
  if primary ∧ version = "IPv6" then
    .error "an IPv6 Primary IP Configuration is unsupported - instead add a IPv4 IP Configuration as the Primary and make the IPv6 IP Configuration the secondary"
  else
    .ok
      { Name := some raw.name
        Properties := some
          { Primary := some primary
            PrivateIPAddressVersion := some version
            ApplicationGatewayBackendAddressPools := applicationGatewayBackendAddressPoolIds
            ApplicationSecurityGroups := applicationSecurityGroupIds
            LoadBalancerBackendAddressPools := loadBalancerBackendAddressPoolIds
            LoadBalancerInboundNatPools := loadBalancerInboundNatPoolIds
            Subnet := if raw.subnet_id ≠ "" then some ⟨some raw.subnet_id⟩ else none
            PublicIPAddressConfiguration :=
              match raw.public_ip_address with
              | [] => none
              | p :: _ => some (expandVirtualMachineScaleSetPublicIPAddressUpdate p) } }

/-- C5: both IP-configuration expand functions reject a primary IPv6 IP
configuration with an error, and for every configuration whose `primary` is
false or whose `version` is IPv4 they return a value with no error. -/
theorem claim_c5_primary_ipv6_rejected :
    ∀ raw : IPConfigurationConfig,
      (raw.primary = true ∧ raw.version = "IPv6" →
        (expandVirtualMachineScaleSetIPConfiguration raw).isOk = false ∧
        (expandVirtualMachineScaleSetIPConfigurationUpdate raw).isOk = false) ∧
      (raw.primary = false ∨ raw.version = "IPv4" →
        (expandVirtualMachineScaleSetIPConfiguration raw).isOk = true ∧
        (expandVirtualMachineScaleSetIPConfigurationUpdate raw).isOk = true) := by
  intro raw
  constructor
  · rintro ⟨hp, hv⟩
    constructor
    · unfold expandVirtualMachineScaleSetIPConfiguration
      rw [if_pos ⟨hp, hv⟩]
      rfl
    · unfold expandVirtualMachineScaleSetIPConfigurationUpdate
      rw [if_pos ⟨hp, hv⟩]
      rfl
  · intro h
    have hcond : ¬(raw.primary ∧ raw.version = "IPv6") := by
      rcases h with h | h
      · rintro ⟨hp, -⟩
        rw [h] at hp
        exact Bool.false_ne_true hp
      · rintro ⟨-, hv⟩
        rw [h] at hv
        simp at hv
    constructor
    · unfold expandVirtualMachineScaleSetIPConfiguration
      rw [if_neg hcond]
      rfl
    · unfold expandVirtualMachineScaleSetIPConfigurationUpdate
      rw [if_neg hcond]
      rfl

/-- Witness for C5: a concrete primary IPv6 configuration is rejected by
both expand functions, and the same configuration with `primary` false is
accepted by both. -/
theorem claim_c5_primary_ipv6_rejected_witness :
    ((expandVirtualMachineScaleSetIPConfiguration
        ⟨"internal", true, "IPv6", "", [], [], [], [], []⟩).isOk = false ∧
      (expandVirtualMachineScaleSetIPConfigurationUpdate
        ⟨"internal", true, "IPv6", "", [], [], [], [], []⟩).isOk = false) ∧
    ((expandVirtualMachineScaleSetIPConfiguration
        ⟨"internal", false, "IPv6", "", [], [], [], [], []⟩).isOk = true ∧
      (expandVirtualMachineScaleSetIPConfigurationUpdate
        ⟨"internal", false, "IPv6", "", [], [], [], [], []⟩).isOk = true) :=
  ⟨(claim_c5_primary_ipv6_rejected ⟨"internal", true, "IPv6", "", [], [], [], [], []⟩).1
      ⟨rfl, rfl⟩,
    (claim_c5_primary_ipv6_rejected ⟨"internal", false, "IPv6", "", [], [], [], [], []⟩).2
      (Or.inl rfl)⟩

/-- Configuration block of a `data_disk` entry. -/
structure DataDiskConfig where
  name : String
  caching : String
  create_option : String
  disk_size_gb : Int
  lun : Int
  storage_account_type : String
  disk_encryption_set_id : String
  ultra_ssd_disk_iops_read_write : Int
  ultra_ssd_disk_mbps_read_write : Int
  write_accelerator_enabled : Bool
deriving DecidableEq, Repr

/-- API model `virtualmachinescalesets.VirtualMachineScaleSetManagedDiskParameters`,
shared by the OS disk and data disks. The source field `SecurityProfile` is
carried for the OS disk flatten. -/
structure VMDiskSecurityProfile where
  SecurityEncryptionType : Option String
  DiskEncryptionSet : Option SubResource
deriving DecidableEq, Repr

/-- API model of managed-disk parameters for scale set disks. -/
structure VirtualMachineScaleSetManagedDiskParameters where
  StorageAccountType : Option String
  DiskEncryptionSet : Option SubResource
  SecurityProfile : Option VMDiskSecurityProfile
deriving DecidableEq, Repr

/-- API model `virtualmachinescalesets.VirtualMachineScaleSetDataDisk`. -/
structure VirtualMachineScaleSetDataDisk where
  Name : Option String
  Caching : Option String
  CreateOption : String
  DiskSizeGB : Option Int
  Lun : Int
  ManagedDisk : Option VirtualMachineScaleSetManagedDiskParameters
  WriteAcceleratorEnabled : Option Bool
  DiskIOPSReadWrite : Option Int
  DiskMBpsReadWrite : Option Int
deriving DecidableEq, Repr

/-- The Go pattern `var v int; if raw > 0 { v = raw }`: the value when
positive, zero otherwise. -/
def clampPos (v : Int) : Int := if v > 0 then v else 0

/-- Expansion of a single data disk entry assuming its ultra-SSD checks have
passed: mirrors the body of the loop of `ExpandVirtualMachineScaleSetDataDisk`. -/
def expandDataDiskEntry (raw : DataDiskConfig) : VirtualMachineScaleSetDataDisk :=
  let iops := clampPos raw.ultra_ssd_disk_iops_read_write
  let mbps := clampPos raw.ultra_ssd_disk_mbps_read_write
  { Name := if raw.name ≠ "" then some raw.name else none
    Caching := some raw.caching
    CreateOption := raw.create_option
    DiskSizeGB := some raw.disk_size_gb
    Lun := raw.lun
    ManagedDisk := some
      { StorageAccountType := some raw.storage_account_type
        DiskEncryptionSet :=
          if raw.disk_encryption_set_id ≠ "" then some ⟨some raw.disk_encryption_set_id⟩ else none
        SecurityProfile := none }
    WriteAcceleratorEnabled := some raw.write_accelerator_enabled
    DiskIOPSReadWrite := if iops > 0 then some iops else none
    DiskMBpsReadWrite := if mbps > 0 then some mbps else none }

/-- Embeds `ExpandVirtualMachineScaleSetDataDisk`: iterates over the disks in
order; a disk with positive ultra-SSD IOPS (respectively MBps) while
`ultraSSDEnabled` is false and the storage account type is not
`PremiumV2_LRS` aborts with an error. -/
def ExpandVirtualMachineScaleSetDataDisk
    (input : List DataDiskConfig) (ultraSSDEnabled : Bool) :
    Except String (List VirtualMachineScaleSetDataDisk) :=
  match input with
  | [] => .ok []
  | raw :: rest =>
    let storageAccountType := raw.storage_account_type
    let iops := clampPos raw.ultra_ssd_disk_iops_read_write
    if iops > 0 ∧ ¬ultraSSDEnabled ∧ storageAccountType ≠ "PremiumV2_LRS" then
      .error "`ultra_ssd_disk_iops_read_write` can only be set when `storage_account_type` is set to `PremiumV2_LRS` or `UltraSSD_LRS`"
    else
      let mbps := clampPos raw.ultra_ssd_disk_mbps_read_write
      if mbps > 0 ∧ ¬ultraSSDEnabled ∧ storageAccountType ≠ "PremiumV2_LRS" then
        .error "`ultra_ssd_disk_mbps_read_write` can only be set when `storage_account_type` is set to `PremiumV2_LRS` or `UltraSSD_LRS`"
      else
        match ExpandVirtualMachineScaleSetDataDisk rest ultraSSDEnabled with
        | .error e => .error e
        | .ok disks => .ok (expandDataDiskEntry raw :: disks)

/-- The clamped value is positive exactly when the original value is. -/
theorem posClamp (v : Int) : clampPos v > 0 ↔ v > 0 := by
  unfold clampPos
  split <;> omega

/-- The data disk expansion fails exactly when some disk sets a positive
ultra-SSD IOPS or MBps value while ultra SSD is disabled and the storage
account type is not PremiumV2_LRS. -/
theorem expand_dd_isOk_false_iff (input : List DataDiskConfig) (u : Bool) :
    (ExpandVirtualMachineScaleSetDataDisk input u).isOk = false ↔
      ∃ d ∈ input,
        (d.ultra_ssd_disk_iops_read_write > 0 ∨ d.ultra_ssd_disk_mbps_read_write > 0) ∧
          u = false ∧ d.storage_account_type ≠ "PremiumV2_LRS" := by
  induction input with
  | nil => simp [ExpandVirtualMachineScaleSetDataDisk, Except.isOk, Except.toBool]
  | cons raw rest ih =>
    rw [ExpandVirtualMachineScaleSetDataDisk]
    by_cases h1 : clampPos raw.ultra_ssd_disk_iops_read_write > 0 ∧ ¬u = true ∧
        raw.storage_account_type ≠ "PremiumV2_LRS"
    · obtain ⟨hi, hu, hs⟩ := h1
      have hu' : u = false := by revert hu; cases u <;> simp
      rw [if_pos ⟨hi, hu, hs⟩]
      refine iff_of_true rfl ⟨raw, List.mem_cons_self _ _, Or.inl ((posClamp _).mp hi), hu', hs⟩
    · rw [if_neg h1]
      by_cases h2 : clampPos raw.ultra_ssd_disk_mbps_read_write > 0 ∧ ¬u = true ∧
          raw.storage_account_type ≠ "PremiumV2_LRS"
      · obtain ⟨hm, hu, hs⟩ := h2
        have hu' : u = false := by revert hu; cases u <;> simp
        rw [if_pos ⟨hm, hu, hs⟩]
        refine iff_of_true rfl ⟨raw, List.mem_cons_self _ _, Or.inr ((posClamp _).mp hm), hu', hs⟩
      · rw [if_neg h2]
        rcases heq : ExpandVirtualMachineScaleSetDataDisk rest u with e | disks
        · simp only [heq]
          have hex := ih.mp (by rw [heq]; rfl)
          obtain ⟨d, hd, hbad⟩ := hex
          exact iff_of_true rfl ⟨d, List.mem_cons_of_mem _ hd, hbad⟩
        · simp only [heq]
          refine iff_of_false (by simp [Except.isOk, Except.toBool]) ?_
          rintro ⟨d, hd, hbad, hu, hsat⟩
          have hu'' : ¬u = true := by rw [hu]; simp
          rcases List.mem_cons.mp hd with rfl | hd
          · rcases hbad with hi | hm
            · exact h1 ⟨(posClamp _).mpr hi, hu'', hsat⟩
            · exact h2 ⟨(posClamp _).mpr hm, hu'', hsat⟩
          · have hfalse : (ExpandVirtualMachineScaleSetDataDisk rest u).isOk = false :=
              ih.mpr ⟨d, hd, hbad, hu, hsat⟩
            rw [heq] at hfalse
            simp [Except.isOk, Except.toBool] at hfalse

/-- On success the data disk expansion maps each entry independently. -/
theorem expand_dd_ok_map {input : List DataDiskConfig} {u : Bool}
    {out : List VirtualMachineScaleSetDataDisk}
    (h : ExpandVirtualMachineScaleSetDataDisk input u = .ok out) :
    out = input.map expandDataDiskEntry := by
  induction input generalizing out with
  | nil =>
    rw [ExpandVirtualMachineScaleSetDataDisk] at h
    injection h with h
    rw [← h]
    rfl
  | cons raw rest ih =>
    rw [ExpandVirtualMachineScaleSetDataDisk] at h
    by_cases h1 : clampPos raw.ultra_ssd_disk_iops_read_write > 0 ∧ ¬u = true ∧
        raw.storage_account_type ≠ "PremiumV2_LRS"
    · rw [if_pos h1] at h
      exact absurd h (by simp)
    · rw [if_neg h1] at h
      by_cases h2 : clampPos raw.ultra_ssd_disk_mbps_read_write > 0 ∧ ¬u = true ∧
          raw.storage_account_type ≠ "PremiumV2_LRS"
      · rw [if_pos h2] at h
        exact absurd h (by simp)
      · rw [if_neg h2] at h
        rcases heq : ExpandVirtualMachineScaleSetDataDisk rest u with e | disks
        · rw [heq] at h
          exact absurd h (by simp)
        · rw [heq] at h
          injection h with h
          rw [← h]
          rw [List.map_cons, ih heq]

/-- An `Except` value is not ok exactly when it is some error. -/
theorem exceptIsOkFalse_iff {ε α : Type} (x : Except ε α) :
    x.isOk = false ↔ ∃ e, x = .error e := by
  cases x <;> simp [Except.isOk, Except.toBool]

/-- Setting an optional field from a clamped value only when positive agrees
with doing so from the raw value. -/
theorem ifClampSome (v : Int) :
    (if clampPos v > 0 then some (clampPos v) else none) = (if v > 0 then some v else none) := by
  by_cases hv : v > 0
  · rw [if_pos ((posClamp v).mpr hv), if_pos hv]
    unfold clampPos
    rw [if_pos hv]
  · rw [if_neg (fun hc => hv ((posClamp v).mp hc)), if_neg hv]

/-- C6: `ExpandVirtualMachineScaleSetDataDisk` returns an error exactly when
some disk has positive `ultra_ssd_disk_iops_read_write` or
`ultra_ssd_disk_mbps_read_write` while `ultraSSDEnabled` is false and that
disk's storage account type is not `PremiumV2_LRS`; otherwise it returns the
expanded list, with the IOPS/MBps fields set only when their values are
positive. -/
theorem claim_c6_data_disk_ultra_ssd :
    ∀ (input : List DataDiskConfig) (ultraSSDEnabled : Bool),
      ((∃ e, ExpandVirtualMachineScaleSetDataDisk input ultraSSDEnabled = .error e) ↔
        ∃ d ∈ input,
          (d.ultra_ssd_disk_iops_read_write > 0 ∨ d.ultra_ssd_disk_mbps_read_write > 0) ∧
            ultraSSDEnabled = false ∧ d.storage_account_type ≠ "PremiumV2_LRS") ∧
      (∀ out, ExpandVirtualMachineScaleSetDataDisk input ultraSSDEnabled = .ok out →
        out.length = input.length ∧
        ∀ (i : Nat) (h1 : i < out.length) (h2 : i < input.length),
          (out.get ⟨i, h1⟩).DiskIOPSReadWrite =
            (if (input.get ⟨i, h2⟩).ultra_ssd_disk_iops_read_write > 0
              then some ((input.get ⟨i, h2⟩).ultra_ssd_disk_iops_read_write) else none) ∧
          (out.get ⟨i, h1⟩).DiskMBpsReadWrite =
            (if (input.get ⟨i, h2⟩).ultra_ssd_disk_mbps_read_write > 0
              then some ((input.get ⟨i, h2⟩).ultra_ssd_disk_mbps_read_write) else none)) := by
  intro input u
  constructor
  · rw [← exceptIsOkFalse_iff]
    exact expand_dd_isOk_false_iff input u
  · intro out hok
    have hmap := expand_dd_ok_map hok
    subst hmap
    refine ⟨List.length_map _ _, ?_⟩
    intro i h1 h2
    have hget : (List.map expandDataDiskEntry input).get ⟨i, h1⟩ =
        expandDataDiskEntry (input.get ⟨i, h2⟩) := by
      simp [List.getElem_map]
    rw [hget]
    exact ⟨ifClampSome _, ifClampSome _⟩

/-- Witness for C6: a Standard_LRS disk with positive IOPS and ultra SSD
disabled is rejected; with ultra SSD enabled the disk expands with IOPS set
and MBps unset. -/
theorem claim_c6_data_disk_ultra_ssd_witness :
    (∃ e, ExpandVirtualMachineScaleSetDataDisk
        [⟨"disk1", "None", "Empty", 10, 0, "Standard_LRS", "", 100, 0, false⟩] false =
          .error e) ∧
    (expandDataDiskEntry
        ⟨"disk1", "None", "Empty", 10, 0, "UltraSSD_LRS", "", 100, 0, false⟩).DiskIOPSReadWrite =
      some 100 ∧
    (expandDataDiskEntry
        ⟨"disk1", "None", "Empty", 10, 0, "UltraSSD_LRS", "", 100, 0, false⟩).DiskMBpsReadWrite =
      none := by
  constructor
  · exact (claim_c6_data_disk_ultra_ssd
        [⟨"disk1", "None", "Empty", 10, 0, "Standard_LRS", "", 100, 0, false⟩] false).1.mpr
      ⟨⟨"disk1", "None", "Empty", 10, 0, "Standard_LRS", "", 100, 0, false⟩,
        List.mem_cons_self _ _, Or.inl (by norm_num), rfl, by decide⟩
  · have h := (claim_c6_data_disk_ultra_ssd
        [⟨"disk1", "None", "Empty", 10, 0, "UltraSSD_LRS", "", 100, 0, false⟩] true).2
      [expandDataDiskEntry ⟨"disk1", "None", "Empty", 10, 0, "UltraSSD_LRS", "", 100, 0, false⟩]
      rfl
    have h0 := h.2 0 (by decide) (by decide)
    exact ⟨h0.1.trans (by norm_num), h0.2.trans (by norm_num)⟩

/-- Embeds `utils.FlattenStringSlice`: nil flattens to the empty list. -/
def FlattenStringSlice (input : Option (List String)) : List String := input.getD []

/-- Embeds the `flattenSubResourcesToIDs` helper of the compute package:
collects the non-nil IDs of the referenced sub-resources. -/
def flattenSubResourcesToIDs (input : Option (List SubResource)) : List String :=
  (input.getD []).filterMap fun s => s.Id

/-- Flattened attributes of a `public_ip_address` block. -/
structure PublicIPAddressAttrs where
  name : String
  domain_name_label : String
  idle_timeout_in_minutes : Int
  ip_tag : List IPTagConfig
  public_ip_prefix_id : String
  version : String
deriving DecidableEq, Repr

/-- Result of flattening a public IP address configuration: the Go function
returns an empty attribute map when the properties are nil. -/
inductive FlattenedPublicIPAddress where
  | emptyMap : FlattenedPublicIPAddress
  | entries : PublicIPAddressAttrs → FlattenedPublicIPAddress
deriving DecidableEq, Repr

/-- Embeds `flattenVirtualMachineScaleSetPublicIPAddress`. -/
def flattenVirtualMachineScaleSetPublicIPAddress
    (input : VirtualMachineScaleSetPublicIPAddressConfiguration) : FlattenedPublicIPAddress :=
  match input.Properties with
  | none => .emptyMap
  | some props =>
    let ipTags := (props.IPTags.getD []).map fun rawTag =>
      (⟨rawTag.Tag.getD "", rawTag.IPTagType.getD ""⟩ : IPTagConfig)
    let domainNameLabel :=
      match props.DnsSettings with
      | some dns => dns.DomainNameLabel
      | none => ""
    let publicIPPrefixId := ((props.PublicIPPrefixRef.map fun p => p.Id).getD none).getD ""
    let version :=
      if props.PublicIPAddressVersion.getD "" ≠ "" then props.PublicIPAddressVersion.getD ""
      else ""
    let idleTimeoutInMinutes := props.IdleTimeoutInMinutes.getD 0
    .entries ⟨input.Name, domainNameLabel, idleTimeoutInMinutes, ipTags, publicIPPrefixId, version⟩

/-- Flattened attributes of an `ip_configuration` block. -/
structure IPConfigurationAttrs where
  name : String
  primary : Bool
  public_ip_address : List FlattenedPublicIPAddress
  subnet_id : String
  version : String
  application_gateway_backend_address_pool_ids : List String
  application_security_group_ids : List String
  load_balancer_backend_address_pool_ids : List String
  load_balancer_inbound_nat_rules_ids : List String
deriving DecidableEq, Repr

/-- Result of flattening an IP configuration: an empty attribute map when
the properties are nil. -/
inductive FlattenedIPConfiguration where
  | emptyMap : FlattenedIPConfiguration
  | entries : IPConfigurationAttrs → FlattenedIPConfiguration
deriving DecidableEq, Repr

/-- Embeds `flattenVirtualMachineScaleSetIPConfiguration`. -/
def flattenVirtualMachineScaleSetIPConfiguration
    (input : VirtualMachineScaleSetIPConfiguration) : FlattenedIPConfiguration :=
  match input.Properties with
  | none => .emptyMap
  | some props =>
    let subnetId := ((props.Subnet.map fun s => s.Id).getD none).getD ""
    let primary := props.Primary.getD false
    let publicIPAddresses :=
      match props.PublicIPAddressConfiguration with
      | none => []
      | some cfg => [flattenVirtualMachineScaleSetPublicIPAddress cfg]
    .entries
      ⟨input.Name, primary, publicIPAddresses, subnetId, props.PrivateIPAddressVersion.getD "",
        flattenSubResourcesToIDs props.ApplicationGatewayBackendAddressPools,
        flattenSubResourcesToIDs props.ApplicationSecurityGroups,
        flattenSubResourcesToIDs props.LoadBalancerBackendAddressPools,
        flattenSubResourcesToIDs props.LoadBalancerInboundNatPools⟩

/-- API model
`virtualmachinescalesets.VirtualMachineScaleSetNetworkConfigurationDnsSettings`. -/
structure VirtualMachineScaleSetNetworkConfigurationDnsSettings where
  DnsServers : Option (List String)
deriving DecidableEq, Repr

/-- API model
`virtualmachinescalesets.VirtualMachineScaleSetNetworkConfigurationProperties`. -/
structure VirtualMachineScaleSetNetworkConfigurationProperties where
  DnsSettings : Option VirtualMachineScaleSetNetworkConfigurationDnsSettings
  EnableAcceleratedNetworking : Option Bool
  EnableIPForwarding : Option Bool
  IPConfigurations : List VirtualMachineScaleSetIPConfiguration
  NetworkSecurityGroup : Option SubResource
  Primary : Option Bool
deriving DecidableEq, Repr

/-- API model `virtualmachinescalesets.VirtualMachineScaleSetNetworkConfiguration`. -/
structure VirtualMachineScaleSetNetworkConfiguration where
  Name : String
  Properties : Option VirtualMachineScaleSetNetworkConfigurationProperties
deriving DecidableEq, Repr

/-- Flattened attributes of a `network_interface` block. -/
structure NetworkInterfaceAttrs where
  name : String
  dns_servers : List String
  enable_accelerated_networking : Bool
  enable_ip_forwarding : Bool
  ip_configuration : List FlattenedIPConfiguration
  network_security_group_id : String
  primary : Bool
deriving DecidableEq, Repr

/-- Embeds `FlattenVirtualMachineScaleSetNetworkInterface`: nil input yields
the empty list; configurations whose properties are nil are skipped
(the `continue` of the Go loop). -/
def FlattenVirtualMachineScaleSetNetworkInterface
    (input : Option (List VirtualMachineScaleSetNetworkConfiguration)) :
    List NetworkInterfaceAttrs :=
  match input with
  | none => []
  | some configs =>
    configs.filterMap fun v =>
      match v.Properties with
      | none => none
      | some props =>
        let networkSecurityGroupId := ((props.NetworkSecurityGroup.map fun g => g.Id).getD none).getD ""
        let dnsServers :=
          match props.DnsSettings with
          | some settings => FlattenStringSlice settings.DnsServers
          | none => []
        some
          ⟨v.Name, dnsServers, props.EnableAcceleratedNetworking.getD false,
            props.EnableIPForwarding.getD false,
            props.IPConfigurations.map flattenVirtualMachineScaleSetIPConfiguration,
            networkSecurityGroupId, props.Primary.getD false⟩

/-- Flattened attributes of a `data_disk` block. -/
structure DataDiskAttrs where
  name : String
  caching : String
  create_option : String
  lun : Int
  disk_encryption_set_id : String
  disk_size_gb : Int
  storage_account_type : String
  ultra_ssd_disk_iops_read_write : Int
  ultra_ssd_disk_mbps_read_write : Int
  write_accelerator_enabled : Bool
deriving DecidableEq, Repr

/-- Embeds `FlattenVirtualMachineScaleSetDataDisk`: nil input yields the
empty list, otherwise each disk is flattened with nil fields defaulted. -/
def FlattenVirtualMachineScaleSetDataDisk
    (input : Option (List VirtualMachineScaleSetDataDisk)) : List DataDiskAttrs :=
  match input with
  | none => []
  | some disks =>
    disks.map fun v =>
      let diskSizeGb : Int :=
        match v.DiskSizeGB with
        | some size => if size ≠ 0 then size else 0
        | none => 0
      let storageAccountType := ((v.ManagedDisk.map fun m => m.StorageAccountType).getD none).getD ""
      let diskEncryptionSetId :=
        (((v.ManagedDisk.map fun m => m.DiskEncryptionSet).getD none).map fun s => s.Id).getD none |>.getD ""
      ⟨v.Name.getD "", v.Caching.getD "", v.CreateOption, v.Lun, diskEncryptionSetId, diskSizeGb,
        storageAccountType, v.DiskIOPSReadWrite.getD 0, v.DiskMBpsReadWrite.getD 0,
        v.WriteAcceleratorEnabled.getD false⟩

/-- API model `virtualmachinescalesets.DiffDiskSettings`; the source field
`Option` is embedded as `OptionValue`. -/
structure DiffDiskSettingsModel where
  OptionValue : Option String
  Placement : Option String
deriving DecidableEq, Repr

/-- API model `virtualmachinescalesets.VirtualMachineScaleSetOSDisk`
restricted to the fields read by the flatten function. -/
structure VirtualMachineScaleSetOSDisk where
  Caching : Option String
  DiffDiskSettings : Option DiffDiskSettingsModel
  DiskSizeGB : Option Int
  ManagedDisk : Option VirtualMachineScaleSetManagedDiskParameters
  WriteAcceleratorEnabled : Option Bool
deriving DecidableEq, Repr

/-- Flattened attributes of a `diff_disk_settings` block. -/
structure DiffDiskSettingsAttrs where
  option : String
  placement : String
deriving DecidableEq, Repr

/-- Flattened attributes of an `os_disk` block. -/
structure OSDiskAttrs where
  caching : String
  disk_size_gb : Int
  diff_disk_settings : List DiffDiskSettingsAttrs
  storage_account_type : String
  write_accelerator_enabled : Bool
  disk_encryption_set_id : String
  secure_vm_disk_encryption_set_id : String
  security_encryption_type : String
deriving DecidableEq, Repr

/-- Embeds `FlattenVirtualMachineScaleSetOSDisk`: nil input yields the empty
list, otherwise a one-entry list with nil fields defaulted. -/
def FlattenVirtualMachineScaleSetOSDisk
    (input : Option VirtualMachineScaleSetOSDisk) : List OSDiskAttrs :=
  match input with
  | none => []
  | some disk =>
    let diffDiskSettings :=
      match disk.DiffDiskSettings with
      | none => []
      | some settings => [(⟨settings.OptionValue.getD "", settings.Placement.getD ""⟩ : DiffDiskSettingsAttrs)]
    let diskSizeGb : Int :=
      match disk.DiskSizeGB with
      | some size => if size ≠ 0 then size else 0
      | none => 0
    let storageAccountType := ((disk.ManagedDisk.map fun m => m.StorageAccountType).getD none).getD ""
    let diskEncryptionSetId :=
      (((disk.ManagedDisk.map fun m => m.DiskEncryptionSet).getD none).map fun s => s.Id).getD none |>.getD ""
    let securityProfile := (disk.ManagedDisk.map fun m => m.SecurityProfile).getD none
    let securityEncryptionType :=
      ((securityProfile.map fun p => p.SecurityEncryptionType).getD none).getD ""
    let secureVMDiskEncryptionSetId :=
      (((securityProfile.map fun p => p.DiskEncryptionSet).getD none).map fun s => s.Id).getD none |>.getD ""
    [⟨disk.Caching.getD "", diskSizeGb, diffDiskSettings, storageAccountType,
        disk.WriteAcceleratorEnabled.getD false, diskEncryptionSetId,
        secureVMDiskEncryptionSetId, securityEncryptionType⟩]

/-- C9: every exported VM scale set flatten function over a nillable API
model (`FlattenVirtualMachineScaleSetAdditionalCapabilities`,
`FlattenVirtualMachineScaleSetNetworkInterface`,
`FlattenVirtualMachineScaleSetDataDisk`,
`FlattenVirtualMachineScaleSetOSDisk`) is total on the nil pointer and
returns the empty list for it. -/
theorem claim_c9_flatten_total_on_nil :
    FlattenVirtualMachineScaleSetAdditionalCapabilities none = [] ∧
    FlattenVirtualMachineScaleSetNetworkInterface none = [] ∧
    FlattenVirtualMachineScaleSetDataDisk none = [] ∧
    FlattenVirtualMachineScaleSetOSDisk none = [] :=
  ⟨rfl, rfl, rfl, rfl⟩

/-- Embeds `parseAsyncOperationStatus` of the liveoutputs package: inputs
matching a known constant case-insensitively are canonicalised; any other
input is passed through unchanged as a best-effort value; no input is
rejected. -/
def parseAsyncOperationStatus (input : String) : Except String String :=
  if goToLower input = "failed" then .ok "Failed"
  else if goToLower input = "inprogress" then .ok "InProgress"
  else if goToLower input = "succeeded" then .ok "Succeeded"
  else .ok input

/-- Embeds `parseLiveOutputResourceState` of the liveoutputs package, the
companion of `parseAsyncOperationStatus` for the live output resource state
enum. -/
def parseLiveOutputResourceState (input : String) : Except String String :=
  if goToLower input = "creating" then .ok "Creating"
  else if goToLower input = "deleting" then .ok "Deleting"
  else if goToLower input = "running" then .ok "Running"
  else .ok input

/-- C10: `parseAsyncOperationStatus` and `parseLiveOutputResourceState` are
total and never return an error: every input yields a value; inputs matching
a known constant case-insensitively are canonicalised to that constant, and
any other input is passed through unchanged. -/
theorem claim_c10_enum_parsers_total :
    ∀ input : String,
      ((∃ v, parseAsyncOperationStatus input = .ok v) ∧
        (goToLower input = "failed" → parseAsyncOperationStatus input = .ok "Failed") ∧
        (goToLower input = "inprogress" → parseAsyncOperationStatus input = .ok "InProgress") ∧
        (goToLower input = "succeeded" → parseAsyncOperationStatus input = .ok "Succeeded") ∧
        (goToLower input ∉ ["failed", "inprogress", "succeeded"] →
          parseAsyncOperationStatus input = .ok input)) ∧
      ((∃ v, parseLiveOutputResourceState input = .ok v) ∧
        (goToLower input = "creating" → parseLiveOutputResourceState input = .ok "Creating") ∧
        (goToLower input = "deleting" → parseLiveOutputResourceState input = .ok "Deleting") ∧
        (goToLower input = "running" → parseLiveOutputResourceState input = .ok "Running") ∧
        (goToLower input ∉ ["creating", "deleting", "running"] →
          parseLiveOutputResourceState input = .ok input)) := by
  intro input
  constructor
  · refine ⟨?_, ?_, ?_, ?_, ?_⟩
    · unfold parseAsyncOperationStatus
      split
      · exact ⟨_, rfl⟩
      · split
        · exact ⟨_, rfl⟩
        · split
          · exact ⟨_, rfl⟩
          · exact ⟨_, rfl⟩
    · intro h
      unfold parseAsyncOperationStatus
      rw [if_pos h]
    · intro h
      unfold parseAsyncOperationStatus
      rw [if_neg (by rw [h]; decide), if_pos h]
    · intro h
      unfold parseAsyncOperationStatus
      rw [if_neg (by rw [h]; decide), if_neg (by rw [h]; decide), if_pos h]
    · intro h
      simp only [List.mem_cons, List.not_mem_nil, or_false, not_or] at h
      obtain ⟨h1, h2, h3⟩ := h
      unfold parseAsyncOperationStatus
      rw [if_neg h1, if_neg h2, if_neg h3]
  · refine ⟨?_, ?_, ?_, ?_, ?_⟩
    · unfold parseLiveOutputResourceState
      split
      · exact ⟨_, rfl⟩
      · split
        · exact ⟨_, rfl⟩
        · split
          · exact ⟨_, rfl⟩
          · exact ⟨_, rfl⟩
    · intro h
      unfold parseLiveOutputResourceState
      rw [if_pos h]
    · intro h
      unfold parseLiveOutputResourceState
      rw [if_neg (by rw [h]; decide), if_pos h]
    · intro h
      unfold parseLiveOutputResourceState
      rw [if_neg (by rw [h]; decide), if_neg (by rw [h]; decide), if_pos h]
    · intro h
      simp only [List.mem_cons, List.not_mem_nil, or_false, not_or] at h
      obtain ⟨h1, h2, h3⟩ := h
      unfold parseLiveOutputResourceState
      rw [if_neg h1, if_neg h2, if_neg h3]

/-- Witness for C10: the parsers evaluated on a mixed-case known value, a
canonical value and an unknown value. -/
theorem claim_c10_enum_parsers_total_witness :
    parseAsyncOperationStatus "INPROGRESS" = .ok "InProgress" ∧
    parseAsyncOperationStatus "unknown-status" = .ok "unknown-status" ∧
    parseLiveOutputResourceState "Running" = .ok "Running" :=
  ⟨((claim_c10_enum_parsers_total "INPROGRESS").1).2.2.1 (by decide),
    ((claim_c10_enum_parsers_total "unknown-status").1).2.2.2.2 (by decide),
    ((claim_c10_enum_parsers_total "Running").2).2.2.2.1 (by decide)⟩

/-- The opening-brace character. -/
def lbrace : Char := Char.ofNat 123

/-- The closing-brace character. -/
def rbrace : Char := Char.ofNat 125

/-- Modelled from the spec: JSON values as produced by the Go standard
library `json.Unmarshal` into `map[string]interface` trees (numbers
restricted to integers; the library is outside this repository). Objects are
kept with keys in byte order, matching the unordered Go map whose
serialization sorts keys. -/
inductive Json where
  | null : Json
  | bool : Bool → Json
  | num : Int → Json
  | str : String → Json
  | arr : List Json → Json
  | obj : List (String × Json) → Json
deriving Repr

/-- Escaping of a character inside a JSON string literal (quote and
backslash; other characters pass through). -/
def escapeJsonChar (c : Char) : String :=
  if c = '"' then "\\\"" else if c = '\\' then "\\\\" else String.singleton c

/-- Escaping of a string for inclusion in a JSON string literal. -/
def escapeJson (s : String) : String := String.join (s.data.map escapeJsonChar)

mutual

/-- Modelled from the spec: compact JSON serialization as the Go standard
library `json.Marshal` produces for `map[string]interface` trees (keys
already in sorted order in `Json.obj`). -/
def serializeJson : Json → String
  | .null => "null"
  | .bool b => if b then "true" else "false"
  | .num n => toString n
  | .str s => "\"" ++ escapeJson s ++ "\""
  | .arr l => "[" ++ serializeJsonList l ++ "]"
  | .obj o => String.singleton lbrace ++ serializeJsonObj o ++ String.singleton rbrace

/-- Comma-separated serialization of array elements. -/
def serializeJsonList : List Json → String
  | [] => ""
  | [x] => serializeJson x
  | x :: y :: xs => serializeJson x ++ "," ++ serializeJsonList (y :: xs)

/-- Comma-separated serialization of object entries. -/
def serializeJsonObj : List (String × Json) → String
  | [] => ""
  | [(k, v)] => "\"" ++ escapeJson k ++ "\":" ++ serializeJson v
  | (k, v) :: e :: xs =>
    "\"" ++ escapeJson k ++ "\":" ++ serializeJson v ++ "," ++ serializeJsonObj (e :: xs)

end

/-- JSON whitespace characters. -/
def isWs (c : Char) : Bool := c = ' ' || c = '\t' || c = '\n' || c = '\r'

/-- Drops leading JSON whitespace. -/
def skipWs : List Char → List Char
  | [] => []
  | c :: cs => if isWs c then skipWs cs else c :: cs

/-- Parses the body of a JSON string literal after the opening quote,
returning the content and the remainder after the closing quote. -/
def parseStringBody : List Char → Option (List Char × List Char)
  | [] => none
  | '"' :: rest => some ([], rest)
  | '\\' :: c :: rest =>
    match parseStringBody rest with
    | some (acc, rem) =>
      if c = '"' then some ('"' :: acc, rem)
      else if c = '\\' then some ('\\' :: acc, rem)
      else if c = 'n' then some ('\n' :: acc, rem)
      else if c = 't' then some ('\t' :: acc, rem)
      else if c = '/' then some ('/' :: acc, rem)
      else none
    | none => none
  | c :: rest =>
    match parseStringBody rest with
    | some (acc, rem) => some (c :: acc, rem)
    | none => none

/-- Splits a leading run of decimal digits off a character list. -/
def parseDigits : List Char → List Char × List Char
  | [] => ([], [])
  | c :: cs =>
    if c.isDigit then
      let (ds, r) := parseDigits cs
      (c :: ds, r)
    else ([], c :: cs)

/-- Numeric value of a digit run. -/
def digitsToNat (l : List Char) : Nat := l.foldl (fun a c => a * 10 + (c.toNat - 48)) 0

/-- Byte-order comparison of character lists, as Go compares string keys
when sorting map keys for serialization. -/
def listLexLt : List Char → List Char → Bool
  | [], [] => false
  | [], _ :: _ => true
  | _ :: _, [] => false
  | a :: as, b :: bs =>
    if a.toNat < b.toNat then true
    else if b.toNat < a.toNat then false
    else listLexLt as bs

/-- Byte-order comparison of strings. -/
def strLtB (a b : String) : Bool := listLexLt a.data b.data

/-- Inserts a key/value pair into an object keyed in byte order, replacing
an existing binding of the same key (later duplicate keys win, as in the Go
map). -/
def insertObjKey (k : String) (v : Json) : List (String × Json) → List (String × Json)
  | [] => [(k, v)]
  | (k2, v2) :: rest =>
    if k = k2 then (k, v) :: rest
    else if strLtB k k2 then (k, v) :: (k2, v2) :: rest
    else (k2, v2) :: insertObjKey k v rest

mutual

/-- Modelled from the spec: fueled recursive-descent parser for JSON values,
the model of the Go standard library `json.Unmarshal`. The fuel argument
only bounds recursion depth; the top-level entry point supplies enough fuel
for the inputs handled here. -/
def parseJsonValue (fuel : Nat) (cs : List Char) : Option (Json × List Char) :=
  match fuel with
  | 0 => none
  | fuel + 1 =>
    match skipWs cs with
    | [] => none
    | c :: rest =>
      if c = 'n' then
        match rest with
        | 'u' :: 'l' :: 'l' :: rem => some (.null, rem)
        | _ => none
      else if c = 't' then
        match rest with
        | 'r' :: 'u' :: 'e' :: rem => some (.bool true, rem)
        | _ => none
      else if c = 'f' then
        match rest with
        | 'a' :: 'l' :: 's' :: 'e' :: rem => some (.bool false, rem)
        | _ => none
      else if c = '"' then
        match parseStringBody rest with
        | some (content, rem) => some (.str (String.mk content), rem)
        | none => none
      else if c = '-' then
        match parseDigits rest with
        | ([], _) => none
        | (ds, rem) => some (.num (-(digitsToNat ds : Int)), rem)
      else if c.isDigit then
        match parseDigits (c :: rest) with
        | ([], _) => none
        | (ds, rem) => some (.num (digitsToNat ds), rem)
      else if c = '[' then
        match skipWs rest with
        | ']' :: rem => some (.arr [], rem)
        | other => parseJsonArrayItems fuel other []
      else if c = rbrace then none
      else if c = lbrace then
        match skipWs rest with
        | d :: rem => if d = rbrace then some (.obj [], rem) else parseJsonObjItems fuel (d :: rem) []
        | [] => none
      else none

/-- Parses the comma-separated items of a JSON array after its first
non-whitespace character. -/
def parseJsonArrayItems (fuel : Nat) (cs : List Char) (acc : List Json) :
    Option (Json × List Char) :=
  match fuel with
  | 0 => none
  | fuel + 1 =>
    match parseJsonValue fuel cs with
    | none => none
    | some (v, rem) =>
      match skipWs rem with
      | ',' :: rem2 => parseJsonArrayItems fuel rem2 (acc ++ [v])
      | ']' :: rem2 => some (.arr (acc ++ [v]), rem2)
      | _ => none

/-- Parses the comma-separated entries of a JSON object, accumulating them
in byte-ordered key order. -/
def parseJsonObjItems (fuel : Nat) (cs : List Char) (acc : List (String × Json)) :
    Option (Json × List Char) :=
  match fuel with
  | 0 => none
  | fuel + 1 =>
    match skipWs cs with
    | '"' :: rest =>
      match parseStringBody rest with
      | none => none
      | some (key, rem) =>
        match skipWs rem with
        | ':' :: rem2 =>
          match parseJsonValue fuel rem2 with
          | none => none
          | some (v, rem3) =>
            let acc2 := insertObjKey (String.mk key) v acc
            match skipWs rem3 with
            | ',' :: rem4 => parseJsonObjItems fuel rem4 acc2
            | d :: rem4 => if d = rbrace then some (.obj acc2, rem4) else none
            | [] => none
        | _ => none
    | _ => none

end

/-- Embeds `pluginsdk.ExpandJsonFromString` (repository helper code outside
src, wrapping `json.Unmarshal` into a string-keyed map): the input must be a
complete JSON object. -/
def ExpandJsonFromString (input : String) : Option (List (String × Json)) :=
  match parseJsonValue (input.data.length + 1) input.data with
  | some (.obj o, rem) => if skipWs rem = [] then some o else none
  | _ => none

/-- Embeds `pluginsdk.FlattenJsonToString` (repository helper code outside
src, wrapping `json.Marshal` of a string-keyed map). -/
def FlattenJsonToString (o : List (String × Json)) : String := serializeJson (.obj o)

/-- Configuration entry of a `protected_settings_from_key_vault` block. -/
structure ProtectedSettingsFromKeyVaultConfig where
  secret_url : String
  source_vault_id : String
deriving DecidableEq, Repr

/-- The extension attribute map hashed by
`virtualMachineScaleSetExtensionHash`. -/
structure ExtensionHashInput where
  name : String
  publisher : String
  type : String
  type_handler_version : String
  auto_upgrade_minor_version : Bool
  force_update_tag : String
  provision_after_extensions : List String
  settings : String
  protected_settings : String
  protected_settings_from_key_vault : List ProtectedSettingsFromKeyVaultConfig

/-- Go `fmt` rendering of a boolean (`%t`). -/
def goFmtBool (b : Bool) : String := if b then "true" else "false"

/-- Space-separated join, as Go `fmt` renders slice elements. -/
def joinSpace : List String → String
  | [] => ""
  | [x] => x
  | x :: y :: xs => x ++ " " ++ joinSpace (y :: xs)

/-- Go `fmt` rendering of a string slice (`%s` of a slice value). -/
def goFmtStringSlice (l : List String) : String := "[" ++ joinSpace l ++ "]"

/-- Modelled from the spec: stand-in for the external `pluginsdk.HashString`
helper (a CRC-based deterministic hash of the buffer string, outside this
repository); the verified property depends only on it being a function of
the buffer. -/
def hashString (s : String) : Nat :=
  s.data.foldl (fun h c => (h * 31 + c.toNat) % 4294967296) 5381

/-- Embeds `virtualMachineScaleSetExtensionHash`: writes the extension
attributes into a buffer, normalizing `settings` and `protected_settings`
by JSON parse-then-serialize (skipping them when empty or unparseable), and
hashes the buffer. -/
def virtualMachineScaleSetExtensionHash (m : ExtensionHashInput) : Nat :=
  let buf :=
    m.name ++ "-" ++ m.publisher ++ "-" ++ m.type ++ "-" ++ m.type_handler_version ++ "-" ++
      goFmtBool m.auto_upgrade_minor_version ++ "-" ++
      m.force_update_tag ++ "-" ++
      goFmtStringSlice m.provision_after_extensions ++ "-" ++
      (if m.settings ≠ "" then
        match ExpandJsonFromString m.settings with
        | some o => FlattenJsonToString o ++ "-"
        | none => ""
      else "") ++
      (if m.protected_settings ≠ "" then
        match ExpandJsonFromString m.protected_settings with
        | some o => FlattenJsonToString o ++ "-"
        | none => ""
      else "") ++
      (match m.protected_settings_from_key_vault with
        | [] => ""
        | kv :: _ => kv.secret_url ++ "-" ++ kv.source_vault_id ++ "-")
  hashString buf

/-- C8: `virtualMachineScaleSetExtensionHash` is invariant under JSON
re-formatting of the `settings` and `protected_settings` fields: if two
extension maps agree except that those strings parse to the same JSON
objects, the hash values are equal. -/
theorem claim_c8_hash_json_whitespace_invariant :
    ∀ (m : ExtensionHashInput) (s1 s2 p1 p2 : String) (js jp : List (String × Json)),
      ExpandJsonFromString s1 = some js → ExpandJsonFromString s2 = some js →
      ExpandJsonFromString p1 = some jp → ExpandJsonFromString p2 = some jp →
      virtualMachineScaleSetExtensionHash
          { m with settings := s1, protected_settings := p1 } =
        virtualMachineScaleSetExtensionHash
          { m with settings := s2, protected_settings := p2 } := by
  intro m s1 s2 p1 p2 js jp h1 h2 h3 h4
  have hne : ∀ s : String, ∀ o : List (String × Json),
      ExpandJsonFromString s = some o → s ≠ "" := by
    rintro s o hs rfl
    rw [show ExpandJsonFromString "" = none from rfl] at hs
    exact Option.noConfusion hs
  unfold virtualMachineScaleSetExtensionHash
  simp only [if_pos (hne s1 js h1), if_pos (hne s2 js h2), if_pos (hne p1 jp h3),
    if_pos (hne p2 jp h4), h1, h2, h3, h4]

/-- Witness for C8: hashes evaluated on concrete settings strings differing
only in whitespace. -/
theorem claim_c8_hash_json_whitespace_invariant_witness :
    virtualMachineScaleSetExtensionHash
        ⟨"ext1", "Microsoft.Azure.Extensions", "CustomScript", "2.0", true, "", [],
          "\x7b\"enabled\":true\x7d", "\x7b\"a\":1\x7d", []⟩ =
      virtualMachineScaleSetExtensionHash
        ⟨"ext1", "Microsoft.Azure.Extensions", "CustomScript", "2.0", true, "", [],
          "\x7b  \"enabled\" : true  \x7d", "\x7b\"a\": 1\x7d", []⟩ :=
  claim_c8_hash_json_whitespace_invariant
    ⟨"ext1", "Microsoft.Azure.Extensions", "CustomScript", "2.0", true, "", [], "", "", []⟩
    "\x7b\"enabled\":true\x7d" "\x7b  \"enabled\" : true  \x7d"
    "\x7b\"a\":1\x7d" "\x7b\"a\": 1\x7d"
    [("enabled", .bool true)] [("a", .num 1)] rfl rfl rfl rfl

/-- API model `virtualmachinescalesets.KeyVaultSecretReference`. -/
structure KeyVaultSecretReference where
  SecretUrl : String
  SourceVault : SubResource
deriving DecidableEq, Repr

/-- Embeds the `flattenProtectedSettingsFromKeyVault` helper of the compute
package: nil flattens to the empty list, otherwise to one entry with the
secret URL and source vault ID. -/
def flattenProtectedSettingsFromKeyVault
    (input : Option KeyVaultSecretReference) : List ProtectedSettingsFromKeyVaultConfig :=
  match input with
  | none => []
  | some ref => [⟨ref.SecretUrl, ref.SourceVault.Id.getD ""⟩]

/-- API model `virtualmachinescalesets.VirtualMachineScaleSetExtensionProperties`;
the source field `Type` is embedded as `ExtensionType`. -/
structure VirtualMachineScaleSetExtensionProperties where
  Publisher : Option String
  ExtensionType : Option String
  TypeHandlerVersion : Option String
  AutoUpgradeMinorVersion : Option Bool
  EnableAutomaticUpgrade : Option Bool
  ForceUpdateTag : Option String
  ProvisionAfterExtensions : Option (List String)
  Settings : Option Json
  ProtectedSettings : Option Json
  ProtectedSettingsFromKeyVault : Option KeyVaultSecretReference

/-- API model `virtualmachinescalesets.VirtualMachineScaleSetExtension`. -/
structure VirtualMachineScaleSetExtension where
  Name : Option String
  Properties : Option VirtualMachineScaleSetExtensionProperties

/-- API model `virtualmachinescalesets.VirtualMachineScaleSetExtensionProfile`. -/
structure VirtualMachineScaleSetExtensionProfile where
  Extensions : Option (List VirtualMachineScaleSetExtension)

/-- An `extension` block held in prior local state, restricted to the fields
the flatten function reads from it. -/
structure ExtensionStateEntry where
  name : String
  protected_settings : String
deriving DecidableEq, Repr

/-- Flattened attributes of an `extension` block. -/
structure ExtensionAttrs where
  name : String
  auto_upgrade_minor_version : Bool
  automatic_upgrade_enabled : Bool
  force_update_tag : String
  provision_after_extensions : List String
  protected_settings : String
  protected_settings_from_key_vault : List ProtectedSettingsFromKeyVaultConfig
  publisher : String
  settings : String
  type : String
  type_handler_version : String

/-- The `extensionsFromState` map of
`flattenVirtualMachineScaleSetExtensions`: state extensions keyed by name,
with later entries overriding earlier ones. -/
def extensionsFromState (stateExtensions : List ExtensionStateEntry) (name : String) :
    Option ExtensionStateEntry :=
  stateExtensions.reverse.find? fun e => e.name == name

/-- Flattening of a single API extension, taking `protected_settings` from
prior local state (non-empty and not the empty JSON object) and every other
attribute from the API response with nil fields defaulted. -/
def flattenOneExtension (stateExtensions : List ExtensionStateEntry)
    (v : VirtualMachineScaleSetExtension) : ExtensionAttrs :=
  let name := v.Name.getD ""
  let protectedSettings :=
    match extensionsFromState stateExtensions name with
    | some ext =>
      if ext.protected_settings ≠ "" ∧ ext.protected_settings ≠ "\x7b\x7d" then
        ext.protected_settings
      else ""
    | none => ""
  match v.Properties with
  | none => ⟨name, false, false, "", [], protectedSettings, flattenProtectedSettingsFromKeyVault none, "", "", "", ""⟩
  | some props =>
    let extSettings :=
      match props.Settings with
      | some (.obj o) => FlattenJsonToString o
      | _ => ""
    ⟨name, props.AutoUpgradeMinorVersion.getD false, props.EnableAutomaticUpgrade.getD false,
      props.ForceUpdateTag.getD "", props.ProvisionAfterExtensions.getD [], protectedSettings,
      flattenProtectedSettingsFromKeyVault props.ProtectedSettingsFromKeyVault,
      props.Publisher.getD "", extSettings, props.ExtensionType.getD "",
      props.TypeHandlerVersion.getD ""⟩

/-- Embeds `flattenVirtualMachineScaleSetExtensions`: nil profile or nil
extension list flattens to the empty list; `protected_settings` is recovered
from prior local state, never from the API response. -/
def flattenVirtualMachineScaleSetExtensions
    (input : Option VirtualMachineScaleSetExtensionProfile)
    (stateExtensions : List ExtensionStateEntry) : List ExtensionAttrs :=
  match input with
  | none => []
  | some profile =>
    match profile.Extensions with
    | none => []
    | some exts => exts.map (flattenOneExtension stateExtensions)

/-- Erases the `ProtectedSettings` field of every extension of a profile,
used to state that flattening never reads it. -/
def eraseApiProtectedSettings
    (input : Option VirtualMachineScaleSetExtensionProfile) :
    Option VirtualMachineScaleSetExtensionProfile :=
  input.map fun profile =>
    ⟨profile.Extensions.map fun exts =>
      exts.map fun v =>
        ⟨v.Name, v.Properties.map fun props =>
          { props with ProtectedSettings := none }⟩⟩

/-- The value the spec says `protected_settings` is flattened to: the stored
state value under the same extension name when non-empty and not the empty
JSON object, the empty string otherwise. -/
def protectedSettingsFromPriorState (stateExtensions : List ExtensionStateEntry)
    (name : String) : String :=
  match extensionsFromState stateExtensions name with
  | some ext =>
    if ext.protected_settings ≠ "" ∧ ext.protected_settings ≠ "\x7b\x7d" then
      ext.protected_settings
    else ""
  | none => ""

/-- C7: `flattenVirtualMachineScaleSetExtensions` never takes
`protected_settings` from the API response (erasing the API field leaves the
result unchanged), and every flattened extension's `protected_settings`
equals the prior-state value under the same extension name when that value
is non-empty and not the empty JSON object, and the empty string
otherwise. -/
theorem claim_c7_protected_settings_never_from_api :
    ∀ (input : Option VirtualMachineScaleSetExtensionProfile)
      (stateExtensions : List ExtensionStateEntry),
      flattenVirtualMachineScaleSetExtensions (eraseApiProtectedSettings input) stateExtensions =
        flattenVirtualMachineScaleSetExtensions input stateExtensions ∧
      ∀ (i : Nat) (h : i < (flattenVirtualMachineScaleSetExtensions input stateExtensions).length),
        ((flattenVirtualMachineScaleSetExtensions input stateExtensions).get ⟨i, h⟩).protected_settings =
          protectedSettingsFromPriorState stateExtensions
            (((flattenVirtualMachineScaleSetExtensions input stateExtensions).get ⟨i, h⟩).name) := by
  intro input st
  constructor
  · rcases input with _ | profile
    · rfl
    · rcases profile with ⟨_ | exts⟩
      · rfl
      · show (exts.map _).map (flattenOneExtension st) = exts.map (flattenOneExtension st)
        rw [List.map_map]
        apply List.map_congr_left
        intro v _
        rcases v with ⟨n, _ | props⟩
        · rfl
        · rfl
  · intro i h
    rcases input with _ | profile
    · simp [flattenVirtualMachineScaleSetExtensions] at h
    · rcases profile with ⟨_ | exts⟩
      · simp [flattenVirtualMachineScaleSetExtensions] at h
      · have hlen : i < exts.length := by
          simpa [flattenVirtualMachineScaleSetExtensions] using h
        have hget : (flattenVirtualMachineScaleSetExtensions (some ⟨some exts⟩) st).get ⟨i, h⟩ =
            flattenOneExtension st (exts.get ⟨i, hlen⟩) := by
          simp [flattenVirtualMachineScaleSetExtensions, List.getElem_map]
        rw [hget]
        rcases hv : exts.get ⟨i, hlen⟩ with ⟨n, _ | props⟩
        · rfl
        · rfl

/-- Witness for C7: a concrete extension whose API response carries a
protected-settings value is flattened with the prior-state value instead. -/
theorem claim_c7_protected_settings_never_from_api_witness :
    ((flattenVirtualMachineScaleSetExtensions
        (some ⟨some [⟨some "ext1",
          some ⟨some "Microsoft.Azure.Extensions", some "CustomScript", some "2.0",
            some true, some false, none, none, none,
            some (.obj [("pw", .str "from-api")]), none⟩⟩]⟩)
        [⟨"ext1", "\x7b\"pw\":\"secret\"\x7d"⟩]).get ⟨0, by decide⟩).protected_settings =
      "\x7b\"pw\":\"secret\"\x7d" :=
  ((claim_c7_protected_settings_never_from_api
      (some ⟨some [⟨some "ext1",
        some ⟨some "Microsoft.Azure.Extensions", some "CustomScript", some "2.0",
          some true, some false, none, none, none,
          some (.obj [("pw", .str "from-api")]), none⟩⟩]⟩)
      [⟨"ext1", "\x7b\"pw\":\"secret\"\x7d"⟩]).2 0 (by decide)).trans rfl
